import Mathlib

/-!
Shallow embedding of `simpysermon.py` (connectivity probing engine).

The program reads a host inventory, resolves each host's IP (literal `ip`
field, else DNS lookup of `fqdn`), and for each declared service with a
valid protocol ("tcp"/"udp") calls `test_connection`, which opens a socket
of the protocol-appropriate type, applies the configured timeout, and runs
`connect_ex`.  Rows (Name, FQDN, IP, Service, Port, Protocol, Status) are
appended to a table printed at the end.

Effects are made explicit:
  * DNS is an oracle `String → Except String String` (`gethostbyname`
    either returns an address or raises with a message);
  * each socket's system calls are an oracle `SockOracle`, drawn per probe
    from a family `Nat → SockOracle` indexed by the probe call counter;
  * observable behaviour is a trace of `Event`s (socket creation, timeout
    application, connect attempts, socket close, printed error messages,
    DNS queries);
  * an uncaught Python exception is `Except.error msg` at top level.
-/

namespace SimPySerMon

/-- Python `str(x)` on an optional string: `None` renders as `"None"`. -/
def pyStr : Option String → String
  | none => "None"
  | some s => s

/-- Socket types: `socket.SOCK_STREAM` and `socket.SOCK_DGRAM`. -/
inductive SockType
  | stream
  | dgram
deriving DecidableEq, Repr

/-- Observable events of a run, in program order. -/
inductive Event
  | sockCreated (t : SockType)
  | timeoutSet (v : Int)
  | connectAttempt (host : Option String) (port : Option Int)
  | sockClosed
  | printedError (msg : String)
  | dnsQuery (name : String)
deriving DecidableEq, Repr

/-- Statuses the program ever places in the table (`colored("OK"|"KO", …)`). -/
inductive Status
  | OK
  | KO
deriving DecidableEq, Repr

/-- One row of the result table (`table.add_row([...])`, line 114). -/
structure Row where
  name : Option String
  fqdn : Option String
  ip : Option String
  service : String
  port : Option Int
  protocol : String
  status : Status
deriving DecidableEq, Repr

/-- A service entry: `service_data.get("port")`, `service_data.get("protocol")`. -/
structure ServiceData where
  port : Option Int
  protocol : Option String
deriving DecidableEq, Repr

/-- A host entry: `host_data.get("host"|"ip"|"fqdn"|"services")`.
`services` is an insertion-ordered mapping, hence a list of pairs; a missing
key yields `none`. -/
structure HostData where
  host : Option String
  ip : Option String
  fqdn : Option String
  services : Option (List (String × ServiceData))
deriving DecidableEq, Repr

/-- `config.timeout` from the configuration document. -/
structure Config where
  timeout : Int
deriving DecidableEq, Repr

/-- Outcomes of the three system calls one `test_connection` invocation makes:
socket creation, `settimeout`, and `connect_ex` on a present host string.
`Except.error msg` means the call raised a Python exception with message
`msg`; `connect` returning `Except.ok code` is `connect_ex` returning errno
`code`.  The oracle's `connect` is consulted only for a present host: with
`host = None`, CPython's argument conversion raises deterministically (see
`connectEx`), so that case is not an oracle degree of freedom. -/
structure SockOracle where
  create : SockType → Except String Unit
  settimeoutRes : Except String Unit
  connect : String → Option Int → Except String Int

/-- Message of the `TypeError` that `connect_ex((None, port))` raises. -/
def typeErrMsg : String :=
  "TypeError: str, bytes or bytearray expected, not NoneType"

/-- `sock.connect_ex((host, port))`: with `host = None`, CPython's address
argument conversion deterministically raises `TypeError` before any system
call, so the outcome does not depend on the network; with a present host the
outcome is the socket's oracle. -/
def connectEx (w : SockOracle) (host : Option String) (port : Option Int) :
    Except String Int :=
  match host with
  | none => .error typeErrMsg
  | some h => w.connect h port

/-- Socket type selection (lines 31–34): default `SOCK_STREAM`, switched to
`SOCK_DGRAM` exactly when the protocol string is `"udp"`. -/
def sockTypeFor (protocol : String) : SockType :=
  if protocol == "udp" then .dgram else .stream

/-- `test_connection(host, port, protocol, timeout)`, lines 21–48.

Returns the result (`Except.ok b` when the function returns `b`,
`Except.error m` when an exception escapes it) together with its event trace.
If socket creation itself raises, the `except` clause prints the error, but
the `finally` clause evaluates `sock.close()` with `sock` unbound, so a
`NameError` escapes the function and no socket is closed. -/
def test_connection (host : Option String) (port : Option Int)
    (protocol : String) (timeout : Int) (w : SockOracle) :
    Except String Bool × List Event :=
  let st := sockTypeFor protocol
  match w.create st with
  | .error e =>
      (.error "NameError: name 'sock' is not defined",
       [.printedError ("Error: " ++ e)])
  | .ok _ =>
    match w.settimeoutRes with
    | .error e =>
        (.ok false,
         [.sockCreated st, .printedError ("Error: " ++ e), .sockClosed])
    | .ok _ =>
      match connectEx w host port with
      | .error e =>
          (.ok false,
           [.sockCreated st, .timeoutSet timeout, .connectAttempt host port,
            .printedError ("Error: " ++ e), .sockClosed])
      | .ok code =>
          (.ok (code == 0),
           [.sockCreated st, .timeoutSet timeout, .connectAttempt host port,
            .sockClosed])

/-- Address resolution for one host (lines 88–100): a literal `ip` is used
as-is; otherwise a present `fqdn` is looked up, with a lookup failure printed
and the IP left absent; a host with neither prints a missing-identity error. -/
def resolveIP (hd : HostData) (dns : String → Except String String) :
    Option String × List Event :=
  match hd.ip, hd.fqdn with
  | some i, _ => (some i, [])
  | none, none =>
      (none,
       [.printedError
          ("Error: No IP and/or FQDN for host \"" ++ pyStr hd.host ++ "\"")])
  | none, some f =>
      match dns f with
      | .ok a => (some a, [.dnsQuery f])
      | .error e => (none, [.dnsQuery f, .printedError ("Error: " ++ e)])

/-- `protocol in ("tcp", "udp")` (line 106). -/
def isValidProto (p : Option String) : Bool :=
  p == some "tcp" || p == some "udp"

/-- The inner service loop (lines 102–114).  `k` is the probe call counter
selecting the oracle for each `test_connection` call.  Invalid-protocol
services print an error and add no row; valid ones probe and append a row
with status OK iff the probe returned true.  An exception escaping
`test_connection` aborts the loop (and the whole run). -/
def processServices (name fqdn ip : Option String) (timeout : Int)
    (w : Nat → SockOracle) :
    List (String × ServiceData) → Nat →
    Except String (List Row × List Event × Nat)
  | [], k => .ok ([], [], k)
  | (svcName, sd) :: rest, k =>
    if isValidProto sd.protocol then
      let r := test_connection ip sd.port (pyStr sd.protocol) timeout (w k)
      match r.1 with
      | .error e => .error e
      | .ok b =>
        match processServices name fqdn ip timeout w rest (k + 1) with
        | .error e => .error e
        | .ok (rows, evs, k2) =>
            .ok (⟨name, fqdn, ip, svcName, sd.port, pyStr sd.protocol,
                  if b then .OK else .KO⟩ :: rows,
                 r.2 ++ evs, k2)
    else
      match processServices name fqdn ip timeout w rest k with
      | .error e => .error e
      | .ok (rows, evs, k2) =>
          .ok (rows,
               .printedError ("Invalid protocol: " ++ pyStr sd.protocol) :: evs,
               k2)

/-- Uncaught exception raised by `services.items()` when `services` is `None`. -/
def attrErrMsg : String :=
  "AttributeError: 'NoneType' object has no attribute 'items'"

/-- One iteration of the host loop (lines 87–114): resolve the address, then
iterate the services.  A host whose record has no `services` mapping makes
`services.items()` raise an uncaught `AttributeError`. -/
def processHost (hd : HostData) (timeout : Int)
    (dns : String → Except String String) (w : Nat → SockOracle) (k : Nat) :
    Except String (List Row × List Event × Nat) :=
  let r := resolveIP hd dns
  match hd.services with
  | none => .error attrErrMsg
  | some svcs =>
    match processServices hd.host hd.fqdn r.1 timeout w svcs k with
    | .error e => .error e
    | .ok (rows, evs, k2) => .ok (rows, r.2 ++ evs, k2)

/-- The host loop over the whole inventory. -/
def runHosts (timeout : Int) (dns : String → Except String String)
    (w : Nat → SockOracle) :
    List HostData → Nat → Except String (List Row × List Event × Nat)
  | [], k => .ok ([], [], k)
  | hd :: rest, k =>
    match processHost hd timeout dns w k with
    | .error e => .error e
    | .ok (rows1, evs1, k1) =>
      match runHosts timeout dns w rest k1 with
      | .error e => .error e
      | .ok (rows2, evs2, k2) => .ok (rows1 ++ rows2, evs1 ++ evs2, k2)

/-- `main` (lines 51–116), after the external collaborators (YAML parsing,
table rendering) are stripped: the probing core mapping the parsed
configuration to the ordered row list and event trace, or to an uncaught
exception (in which case `print(table)` on line 116 is never reached). -/
def main (cfg : Config) (hosts : List HostData)
    (dns : String → Except String String) (w : Nat → SockOracle) :
    Except String (List Row × List Event) :=
  match runHosts cfg.timeout dns w hosts 0 with
  | .error e => .error e
  | .ok (rows, evs, _) => .ok (rows, evs)

/-- Number of declared services, summed over hosts (what C1 claims the output
length equals). -/
def declaredServiceCount (hosts : List HostData) : Nat :=
  (hosts.map (fun h => (h.services.getD []).length)).sum

/-- Number of declared services with a valid protocol, summed over hosts
(what the output length actually equals). -/
def validServiceCount (hosts : List HostData) : Nat :=
  (hosts.map
    (fun h => ((h.services.getD []).filter
      (fun s => isValidProto s.2.protocol)).length)).sum

/-- The (host name, service name) pairs of valid-protocol services in input
iteration order: hosts in declared order, services in declared order. -/
def expectedPairs (hosts : List HostData) : List (Option String × String) :=
  (hosts.map
    (fun h => ((h.services.getD []).filter
      (fun s => isValidProto s.2.protocol)).map
        (fun s => (h.host, s.1)))).flatten

/-- Length of an `Except`-wrapped run's row list, when the run completed. -/
def resultLength (r : Except String (List Row × List Event)) : Option Nat :=
  match r with
  | .ok (rows, _) => some rows.length
  | .error _ => none

/-- Service names of an `Except`-wrapped run's rows, when the run completed. -/
def resultServices (r : Except String (List Row × List Event)) :
    Option (List String) :=
  match r with
  | .ok (rows, _) => some (rows.map (fun row => row.service))
  | .error _ => none

/-! Concrete fixtures used by witnesses and counterexamples. -/

/-- A DNS oracle whose every lookup fails. -/
def dnsFail : String → Except String String :=
  fun n => .error ("[Errno -2] Name or service not known: " ++ n)

/-- A DNS oracle that resolves every name to `93.184.216.34`. -/
def dnsConst : String → Except String String :=
  fun _ => .ok "93.184.216.34"

/-- Socket oracles on which every system call succeeds and `connect_ex` on
every present host returns 0. -/
def wAllOK : Nat → SockOracle :=
  fun _ => ⟨fun _ => .ok (), .ok (), fun _ _ => .ok 0⟩

/-- Socket oracles on which `connect_ex` always returns errno 111
(connection refused). -/
def wRefused : Nat → SockOracle :=
  fun _ => ⟨fun _ => .ok (), .ok (), fun _ _ => .ok 111⟩

/-- A socket oracle on which socket creation itself raises. -/
def wCreateFail : SockOracle :=
  ⟨fun _ => .error "OSError: [Errno 24] Too many open files", .ok (),
   fun _ _ => .ok 0⟩

/-- One host, one service whose protocol is `icmp` (invalid). -/
def hostsA : List HostData :=
  [⟨some "alpha", some "10.0.0.1", none, some [("ping", ⟨some 7, some "icmp"⟩)]⟩]

/-- One host with an invalid-protocol service followed by a tcp service. -/
def hostsB : List HostData :=
  [⟨some "beta", some "10.0.0.2", none,
    some [("ping", ⟨some 7, some "icmp"⟩), ("web", ⟨some 80, some "tcp"⟩)]⟩]

/-- One host with neither `ip` nor `fqdn` and one tcp service. -/
def hostsD : List HostData :=
  [⟨some "delta", none, none, some [("web", ⟨some 80, some "tcp"⟩)]⟩]

/-- One host whose record has no `services` mapping. -/
def hostsE : List HostData :=
  [⟨some "eps", some "10.0.0.5", none, none⟩]

/-- A well-formed host processed before a services-less one. -/
def hostPre : HostData :=
  ⟨some "a1", some "10.0.0.1", none, some [("web", ⟨some 80, some "tcp"⟩)]⟩

/-- A host whose record has no `services` mapping. -/
def hostNoSvc : HostData :=
  ⟨some "nosvc", some "10.0.0.9", none, none⟩

/-- The output of the run over `hostsB` against `dnsFail`/`wAllOK`. -/
def outB : List Row × List Event :=
  ([⟨some "beta", none, some "10.0.0.2", "web", some 80, "tcp", .OK⟩],
   [.printedError "Invalid protocol: icmp", .sockCreated .stream,
    .timeoutSet 2, .connectAttempt (some "10.0.0.2") (some 80), .sockClosed])

/-! Helper lemmas about `test_connection`: its exact value for each shape of
oracle outcome, and facts about its event trace. -/

/-- If socket creation succeeds, the timeout is set and `connect_ex` returning
`code` makes the probe return `code == 0`, with the socket closed last. -/
lemma tc_conn_code (host : Option String) (port : Option Int) (proto : String)
    (timeout : Int) (w : SockOracle) (code : Int)
    (hc : w.create (sockTypeFor proto) = .ok ())
    (hs : w.settimeoutRes = .ok ())
    (hx : connectEx w host port = .ok code) :
    test_connection host port proto timeout w =
      (.ok (code == 0),
       [.sockCreated (sockTypeFor proto), .timeoutSet timeout,
        .connectAttempt host port, .sockClosed]) := by
  simp [test_connection, hc, hs, hx]

/-- If `connect_ex` raises, the exception is caught, the error printed, the
socket closed, and `False` returned. -/
lemma tc_conn_raise (host : Option String) (port : Option Int) (proto : String)
    (timeout : Int) (w : SockOracle) (e : String)
    (hc : w.create (sockTypeFor proto) = .ok ())
    (hs : w.settimeoutRes = .ok ())
    (hx : connectEx w host port = .error e) :
    test_connection host port proto timeout w =
      (.ok false,
       [.sockCreated (sockTypeFor proto), .timeoutSet timeout,
        .connectAttempt host port, .printedError ("Error: " ++ e),
        .sockClosed]) := by
  simp [test_connection, hc, hs, hx]

/-- If `settimeout` raises, the exception is caught, the socket closed, and
`False` returned; no connect attempt happens. -/
lemma tc_set_raise (host : Option String) (port : Option Int) (proto : String)
    (timeout : Int) (w : SockOracle) (e : String)
    (hc : w.create (sockTypeFor proto) = .ok ())
    (hs : w.settimeoutRes = .error e) :
    test_connection host port proto timeout w =
      (.ok false,
       [.sockCreated (sockTypeFor proto), .printedError ("Error: " ++ e),
        .sockClosed]) := by
  simp [test_connection, hc, hs]

/-- If socket creation raises, the `finally` block evaluates `sock.close()`
with `sock` unbound: a `NameError` escapes `test_connection` and no socket
is closed. -/
lemma tc_create_raise (host : Option String) (port : Option Int)
    (proto : String) (timeout : Int) (w : SockOracle) (e : String)
    (hc : w.create (sockTypeFor proto) = .error e) :
    test_connection host port proto timeout w =
      (.error "NameError: name 'sock' is not defined",
       [.printedError ("Error: " ++ e)]) := by
  simp [test_connection, hc]

/-- If socket creation succeeds, `test_connection` returns normally. -/
lemma tc_ok (host : Option String) (port : Option Int) (proto : String)
    (timeout : Int) (w : SockOracle)
    (hc : w.create (sockTypeFor proto) = .ok ()) :
    ∃ b evs, test_connection host port proto timeout w = (.ok b, evs) := by
  cases hs : w.settimeoutRes with
  | error e => exact ⟨_, _, tc_set_raise host port proto timeout w e hc hs⟩
  | ok u =>
    cases u
    cases hx : connectEx w host port with
    | error e => exact ⟨_, _, tc_conn_raise host port proto timeout w e hc hs hx⟩
    | ok code => exact ⟨_, _, tc_conn_code host port proto timeout w code hc hs hx⟩

/-- Every timeout value a probe applies is the `timeout` it was called with. -/
lemma tc_timeout (host : Option String) (port : Option Int) (proto : String)
    (timeout : Int) (w : SockOracle) (v : Int)
    (hmem : Event.timeoutSet v ∈ (test_connection host port proto timeout w).2) :
    v = timeout := by
  cases hc : w.create (sockTypeFor proto) with
  | error e =>
    rw [tc_create_raise host port proto timeout w e hc] at hmem
    simp at hmem
  | ok u =>
    cases u
    cases hs : w.settimeoutRes with
    | error e =>
      rw [tc_set_raise host port proto timeout w e hc hs] at hmem
      simp at hmem
    | ok u =>
      cases u
      cases hx : connectEx w host port with
      | error e =>
        rw [tc_conn_raise host port proto timeout w e hc hs hx] at hmem
        simp at hmem
        exact hmem
      | ok code =>
        rw [tc_conn_code host port proto timeout w code hc hs hx] at hmem
        simp at hmem
        exact hmem

/-- A host with a literal IP resolves to it with no observable event at all:
no DNS query and no printed error, whatever `fqdn` holds. -/
lemma resolveIP_literal (hd : HostData) (dns : String → Except String String)
    (i : String) (h : hd.ip = some i) :
    resolveIP hd dns = (some i, []) := by
  rcases hd with ⟨hh, hip, hfq, hsv⟩
  cases hip with
  | none => simp at h
  | some j =>
    cases h
    cases hfq <;> simp [resolveIP]

/-- Address resolution never sets a socket timeout. -/
lemma resolveIP_no_timeout (hd : HostData)
    (dns : String → Except String String) (v : Int) :
    Event.timeoutSet v ∉ (resolveIP hd dns).2 := by
  rcases hd with ⟨hh, hip, hfq, hsv⟩
  cases hip <;> cases hfq <;> simp [resolveIP]
  case none.some f =>
    cases dns f <;> simp

/-- Structure of a completed service loop: the rows' (host name, service)
pairs are exactly the valid-protocol services in declared order, and every
timeout applied equals the configured one. -/
lemma ps_pairs (name fqdn ip : Option String) (timeout : Int)
    (w : Nat → SockOracle) :
    ∀ (svcs : List (String × ServiceData)) (k : Nat) rows evs k2,
      processServices name fqdn ip timeout w svcs k = .ok (rows, evs, k2) →
      rows.map (fun r => (r.name, r.service)) =
        (svcs.filter (fun s => isValidProto s.2.protocol)).map
          (fun s => (name, s.1)) ∧
      ∀ v, Event.timeoutSet v ∈ evs → v = timeout := by
  intro svcs
  induction svcs with
  | nil =>
    intro k rows evs k2 h
    simp [processServices] at h
    obtain ⟨h1, h2, h3⟩ := h
    subst h1
    subst h2
    simp
  | cons s rest ih =>
    intro k rows evs k2 h
    obtain ⟨svcName, sd⟩ := s
    by_cases hv : isValidProto sd.protocol = true
    · rw [processServices] at h
      simp only [hv, if_true] at h
      cases hb : (test_connection ip sd.port (pyStr sd.protocol) timeout
          (w k)).1 with
      | error e => rw [hb] at h; simp at h
      | ok b =>
        rw [hb] at h
        cases hrec : processServices name fqdn ip timeout w rest (k + 1) with
        | error e => rw [hrec] at h; simp at h
        | ok t =>
          obtain ⟨rows2, evs2, k3⟩ := t
          rw [hrec] at h
          simp only [Except.ok.injEq, Prod.mk.injEq] at h
          obtain ⟨h1, h2, h3⟩ := h
          subst h1
          subst h2
          have ihh := ih (k + 1) rows2 evs2 k3 hrec
          constructor
          · simp [List.filter_cons, hv, ihh.1]
          · intro v hvmem
            rcases List.mem_append.mp hvmem with hm | hm
            · exact tc_timeout ip sd.port (pyStr sd.protocol) timeout (w k) v hm
            · exact ihh.2 v hm
    · rw [processServices] at h
      simp only [hv, if_false, Bool.false_eq_true] at h
      cases hrec : processServices name fqdn ip timeout w rest k with
      | error e => rw [hrec] at h; simp at h
      | ok t =>
        obtain ⟨rows2, evs2, k3⟩ := t
        rw [hrec] at h
        simp only [Except.ok.injEq, Prod.mk.injEq] at h
        obtain ⟨h1, h2, h3⟩ := h
        subst h1
        subst h2
        have ihh := ih k rows2 evs2 k3 hrec
        constructor
        · simp [List.filter_cons, hv, ihh.1]
        · intro v hvmem
          rcases List.mem_cons.mp hvmem with hm | hm
          · simp at hm
          · exact ihh.2 v hm

/-- If socket creation never fails, the service loop completes. -/
lemma ps_total (name fqdn ip : Option String) (timeout : Int)
    (w : Nat → SockOracle) (hw : ∀ k st, (w k).create st = .ok ()) :
    ∀ (svcs : List (String × ServiceData)) (k : Nat),
      ∃ rows evs k2,
        processServices name fqdn ip timeout w svcs k = .ok (rows, evs, k2) := by
  intro svcs
  induction svcs with
  | nil => intro k; exact ⟨[], [], k, rfl⟩
  | cons s rest ih =>
    intro k
    obtain ⟨svcName, sd⟩ := s
    by_cases hv : isValidProto sd.protocol = true
    · obtain ⟨b, evs1, hb⟩ :=
        tc_ok ip sd.port (pyStr sd.protocol) timeout (w k) (hw k _)
      obtain ⟨rows2, evs2, k3, hrec⟩ := ih (k + 1)
      have heq : processServices name fqdn ip timeout w
          ((svcName, sd) :: rest) k =
          .ok (⟨name, fqdn, ip, svcName, sd.port, pyStr sd.protocol,
                if b then .OK else .KO⟩ :: rows2, evs1 ++ evs2, k3) := by
        rw [processServices]
        simp only [hv, if_true, hb, hrec]
      exact ⟨_, _, _, heq⟩
    · obtain ⟨rows2, evs2, k3, hrec⟩ := ih k
      have heq : processServices name fqdn ip timeout w
          ((svcName, sd) :: rest) k =
          .ok (rows2,
               .printedError ("Invalid protocol: " ++ pyStr sd.protocol)
                 :: evs2, k3) := by
        rw [processServices]
        simp only [hv, if_false, Bool.false_eq_true, hrec]
      exact ⟨_, _, _, heq⟩

/-- Structure of a completed host iteration. -/
lemma ph_pairs (hd : HostData) (timeout : Int)
    (dns : String → Except String String) (w : Nat → SockOracle)
    (k : Nat) (rows : List Row) (evs : List Event) (k2 : Nat)
    (h : processHost hd timeout dns w k = .ok (rows, evs, k2)) :
    rows.map (fun r => (r.name, r.service)) =
      ((hd.services.getD []).filter (fun s => isValidProto s.2.protocol)).map
        (fun s => (hd.host, s.1)) ∧
    ∀ v, Event.timeoutSet v ∈ evs → v = timeout := by
  unfold processHost at h
  cases hsv : hd.services with
  | none => rw [hsv] at h; simp at h
  | some svcs =>
    rw [hsv] at h
    dsimp only at h
    cases hps : processServices hd.host hd.fqdn (resolveIP hd dns).1 timeout
        w svcs k with
    | error e => rw [hps] at h; simp at h
    | ok t =>
      obtain ⟨rows2, evs2, k3⟩ := t
      rw [hps] at h
      dsimp only at h
      simp only [Except.ok.injEq, Prod.mk.injEq] at h
      obtain ⟨h1, h2, h3⟩ := h
      subst h1
      subst h2
      have hpp := ps_pairs hd.host hd.fqdn (resolveIP hd dns).1 timeout w
        svcs k rows2 evs2 k3 hps
      constructor
      · simpa [hsv] using hpp.1
      · intro v hvmem
        rcases List.mem_append.mp hvmem with hm | hm
        · exact absurd hm (resolveIP_no_timeout hd dns v)
        · exact hpp.2 v hm

/-- A host with a services mapping completes when sockets can be created. -/
lemma ph_total (hd : HostData) (timeout : Int)
    (dns : String → Except String String) (w : Nat → SockOracle)
    (hw : ∀ k st, (w k).create st = .ok ())
    (svcs : List (String × ServiceData)) (hsv : hd.services = some svcs)
    (k : Nat) :
    ∃ rows evs k2, processHost hd timeout dns w k = .ok (rows, evs, k2) := by
  obtain ⟨rows2, evs2, k3, hps⟩ :=
    ps_total hd.host hd.fqdn (resolveIP hd dns).1 timeout w hw svcs k
  have heq : processHost hd timeout dns w k =
      .ok (rows2, (resolveIP hd dns).2 ++ evs2, k3) := by
    unfold processHost
    rw [hsv]
    simp only [hps]
  exact ⟨_, _, _, heq⟩

/-- A host without a services mapping raises `AttributeError`. -/
lemma ph_abort (hd : HostData) (timeout : Int)
    (dns : String → Except String String) (w : Nat → SockOracle)
    (k : Nat) (hnone : hd.services = none) :
    processHost hd timeout dns w k = .error attrErrMsg := by
  unfold processHost
  rw [hnone]

/-- `expectedPairs` unfolds host by host. -/
lemma expectedPairs_cons (hd : HostData) (rest : List HostData) :
    expectedPairs (hd :: rest) =
      ((hd.services.getD []).filter (fun s => isValidProto s.2.protocol)).map
        (fun s => (hd.host, s.1)) ++ expectedPairs rest := by
  simp [expectedPairs]

/-- The number of expected pairs is the valid-protocol service count. -/
lemma expectedPairs_length (hosts : List HostData) :
    (expectedPairs hosts).length = validServiceCount hosts := by
  induction hosts with
  | nil => simp [expectedPairs, validServiceCount]
  | cons hd rest ih =>
    rw [expectedPairs_cons, List.length_append, ih]
    simp [validServiceCount]

/-- Structure of a completed run over the whole inventory: pairs in input
order and uniform timeouts. -/
lemma rh_pairs (timeout : Int) (dns : String → Except String String)
    (w : Nat → SockOracle) :
    ∀ (hosts : List HostData) (k : Nat) rows evs k2,
      runHosts timeout dns w hosts k = .ok (rows, evs, k2) →
      rows.map (fun r => (r.name, r.service)) = expectedPairs hosts ∧
      ∀ v, Event.timeoutSet v ∈ evs → v = timeout := by
  intro hosts
  induction hosts with
  | nil =>
    intro k rows evs k2 h
    simp [runHosts] at h
    obtain ⟨h1, h2, h3⟩ := h
    subst h1
    subst h2
    simp [expectedPairs]
  | cons hd rest ih =>
    intro k rows evs k2 h
    rw [runHosts] at h
    cases hph : processHost hd timeout dns w k with
    | error e => rw [hph] at h; simp at h
    | ok t =>
      obtain ⟨rows1, evs1, k1⟩ := t
      rw [hph] at h
      dsimp only at h
      cases hrec : runHosts timeout dns w rest k1 with
      | error e => rw [hrec] at h; simp at h
      | ok t2 =>
        obtain ⟨rows2, evs2, k3⟩ := t2
        rw [hrec] at h
        simp only [Except.ok.injEq, Prod.mk.injEq] at h
        obtain ⟨h1, h2, h3⟩ := h
        subst h1
        subst h2
        have hp1 := ph_pairs hd timeout dns w k rows1 evs1 k1 hph
        have hp2 := ih k1 rows2 evs2 k3 hrec
        constructor
        · simp [expectedPairs_cons, hp1.1, hp2.1]
        · intro v hvmem
          rcases List.mem_append.mp hvmem with hm | hm
          · exact hp1.2 v hm
          · exact hp2.2 v hm

/-- If every host has a services mapping and sockets can always be created,
the whole run completes, whatever the DNS oracle does. -/
lemma rh_total (timeout : Int) (dns : String → Except String String)
    (w : Nat → SockOracle) (hw : ∀ k st, (w k).create st = .ok ()) :
    ∀ (hosts : List HostData),
      (∀ hd ∈ hosts, (hd.services).isSome = true) →
      ∀ k, ∃ rows evs k2,
        runHosts timeout dns w hosts k = .ok (rows, evs, k2) := by
  intro hosts
  induction hosts with
  | nil => intro _ k; exact ⟨[], [], k, rfl⟩
  | cons hd rest ih =>
    intro hall k
    obtain ⟨svcs, hsv⟩ := Option.isSome_iff_exists.mp
      (hall hd (List.mem_cons_self hd rest))
    obtain ⟨rows1, evs1, k1, hph⟩ := ph_total hd timeout dns w hw svcs hsv k
    obtain ⟨rows2, evs2, k3, hrec⟩ :=
      ih (fun h hm => hall h (List.mem_cons_of_mem hd hm)) k1
    have heq : runHosts timeout dns w (hd :: rest) k =
        .ok (rows1 ++ rows2, evs1 ++ evs2, k3) := by
      rw [runHosts]
      simp only [hph, hrec]
    exact ⟨_, _, _, heq⟩

/-- A services-less host reached after well-formed hosts aborts the run with
the `AttributeError`. -/
lemma rh_abort (timeout : Int) (dns : String → Except String String)
    (w : Nat → SockOracle) (hw : ∀ k st, (w k).create st = .ok ())
    (hd : HostData) (hnone : hd.services = none) (post : List HostData) :
    ∀ (pre : List HostData),
      (∀ h ∈ pre, (h.services).isSome = true) →
      ∀ k, runHosts timeout dns w (pre ++ hd :: post) k = .error attrErrMsg := by
  intro pre
  induction pre with
  | nil =>
    intro _ k
    rw [List.nil_append, runHosts, ph_abort hd timeout dns w k hnone]
  | cons h0 pre' ih =>
    intro hall k
    obtain ⟨svcs, hsv⟩ := Option.isSome_iff_exists.mp
      (hall h0 (List.mem_cons_self h0 pre'))
    obtain ⟨rows1, evs1, k1, hph⟩ := ph_total h0 timeout dns w hw svcs hsv k
    rw [List.cons_append, runHosts]
    simp only [hph, ih (fun h hm => hall h (List.mem_cons_of_mem h0 hm)) k1]

/-- A completed `main` run is a completed `runHosts` run. -/
lemma main_ok_inv (cfg : Config) (hosts : List HostData)
    (dns : String → Except String String) (w : Nat → SockOracle)
    (out : List Row × List Event) (h : main cfg hosts dns w = .ok out) :
    ∃ k2, runHosts cfg.timeout dns w hosts 0 = .ok (out.1, out.2, k2) := by
  unfold main at h
  cases hrh : runHosts cfg.timeout dns w hosts 0 with
  | error e => rw [hrh] at h; simp at h
  | ok t =>
    obtain ⟨rows, evs, k2⟩ := t
    rw [hrh] at h
    dsimp only at h
    simp only [Except.ok.injEq] at h
    subst h
    refine ⟨k2, ?_⟩
    dsimp only


/-- C1, counterexample: a declared service with protocol `icmp` yields no
row at all, so the output is shorter than the declared (host, service) pair
count — the claimed ERROR row does not exist. -/
theorem C1_counterexample :
    resultLength (main ⟨2⟩ hostsA dnsFail wAllOK) = some 0 ∧
    declaredServiceCount hostsA = 1 :=
  ⟨rfl, rfl⟩

/-- C1 (amended): for every run that completes, the scheduler produces
exactly one row per declared (host, service) pair whose protocol is valid
(`tcp`/`udp`); invalid-protocol services are omitted from the output, so the
output length is the sum over hosts of the number of valid-protocol
services. -/
theorem C1_row_count (cfg : Config) (hosts : List HostData)
    (dns : String → Except String String) (w : Nat → SockOracle)
    (out : List Row × List Event) (h : main cfg hosts dns w = .ok out) :
    out.1.length = validServiceCount hosts := by
  obtain ⟨k2, hrh⟩ := main_ok_inv cfg hosts dns w out h
  have hp := rh_pairs cfg.timeout dns w hosts 0 out.1 out.2 k2 hrh
  have h1 : (out.1.map (fun r => (r.name, r.service))).length =
      out.1.length := by simp
  rw [← h1, hp.1, expectedPairs_length]

/-- C1 witness: the completed run over `hostsB` has exactly one row, the
number of its valid-protocol services. -/
theorem C1_row_count_witness : outB.1.length = validServiceCount hostsB :=
  C1_row_count ⟨2⟩ hostsB dnsFail wAllOK outB rfl

/-- C2, counterexample: in a run whose host declares an `icmp` service and a
`tcp` service, the output contains a row only for the `tcp` service — the
`icmp` service gets no row (in particular no ERROR row). -/
theorem C2_counterexample :
    resultServices (main ⟨2⟩ hostsB dnsFail wAllOK) = some ["web"] :=
  rfl

/-- C2 (amended): a service whose protocol is neither `tcp` nor `udp` makes
the run print an error naming the invalid protocol and record no row for it;
no socket is opened and no connection attempted for that service, and the
remaining services of the host are still evaluated exactly as they would
have been (same rows, same events, same probe counter). -/
theorem C2_invalid_protocol (name fqdn ip : Option String) (timeout : Int)
    (w : Nat → SockOracle) (svcName : String) (sd : ServiceData)
    (rest : List (String × ServiceData)) (k : Nat)
    (h : isValidProto sd.protocol = false) :
    processServices name fqdn ip timeout w ((svcName, sd) :: rest) k =
      (processServices name fqdn ip timeout w rest k).map
        (fun r => (r.1,
          Event.printedError ("Invalid protocol: " ++ pyStr sd.protocol)
            :: r.2.1, r.2.2)) := by
  rw [processServices]
  simp only [h, if_false, Bool.false_eq_true]
  cases hrec : processServices name fqdn ip timeout w rest k with
  | error e => rfl
  | ok t => obtain ⟨rows, evs, k2⟩ := t; rfl

/-- C2 witness: an `icmp`-only service list produces only the printed error,
on top of the empty tail run. -/
theorem C2_invalid_protocol_witness :
    isValidProto (some "icmp") = false ∧
    processServices (some "beta") none (some "10.0.0.2") 2 wAllOK
        [("ping", ⟨some 7, some "icmp"⟩)] 0 =
      (processServices (some "beta") none (some "10.0.0.2") 2 wAllOK [] 0).map
        (fun r => (r.1,
          Event.printedError ("Invalid protocol: " ++ pyStr (some "icmp"))
            :: r.2.1, r.2.2)) :=
  ⟨rfl, C2_invalid_protocol (some "beta") none (some "10.0.0.2") 2 wAllOK
    "ping" ⟨some 7, some "icmp"⟩ [] 0 rfl⟩

/-- C3, code bug: if socket creation itself raises, the `except` clause
prints the error but the `finally` clause evaluates `sock.close()` with
`sock` unbound, so a `NameError` escapes `test_connection` (and no close
happens), contradicting the documented True/False return and the guaranteed
release on every exit path. -/
theorem C3_code_bug_eval :
    test_connection (some "10.0.0.3") (some 80) "tcp" 2 wCreateFail =
      (.error "NameError: name 'sock' is not defined",
       [.printedError "Error: OSError: [Errno 24] Too many open files"]) :=
  rfl

/-- C4, counterexample: a host with neither `ip` nor `fqdn` (absent IP) is
still probed — a socket is created, the timeout set, and the connect call
attempted, where `connect_ex((None, port))` raises its deterministic
`TypeError`, which is caught and printed — so the run records a KO row after
performing socket operations, refuting "immediately reports failure without
attempting any socket operation". -/
theorem C4_counterexample :
    main ⟨2⟩ hostsD dnsFail wAllOK =
      .ok ([⟨some "delta", none, none, "web", some 80, "tcp", .KO⟩],
           [.printedError "Error: No IP and/or FQDN for host \"delta\"",
            .sockCreated .stream, .timeoutSet 2,
            .connectAttempt none (some 80),
            .printedError ("Error: " ++ typeErrMsg), .sockClosed]) :=
  rfl

/-- C4 (amended): a probe invoked with an absent IP is not short-circuited:
it still creates a socket, applies the timeout, and attempts the connect
call, which deterministically raises `TypeError`; the exception is caught
and printed, the socket is closed, and failure is reported. -/
theorem C4_absent_ip_probes (port : Option Int) (proto : String)
    (timeout : Int) (w : SockOracle)
    (hc : w.create (sockTypeFor proto) = .ok ())
    (hs : w.settimeoutRes = .ok ()) :
    test_connection none port proto timeout w =
      (.ok false,
       [.sockCreated (sockTypeFor proto), .timeoutSet timeout,
        .connectAttempt none port,
        .printedError ("Error: " ++ typeErrMsg), .sockClosed]) :=
  tc_conn_raise none port proto timeout w typeErrMsg hc hs rfl

/-- C4 witness: the absent-IP probe at concrete inputs. -/
theorem C4_absent_ip_probes_witness :
    test_connection none (some 80) "tcp" 2 (wAllOK 0) =
      (.ok false,
       [.sockCreated (sockTypeFor "tcp"), .timeoutSet 2,
        .connectAttempt none (some 80),
        .printedError ("Error: " ++ typeErrMsg), .sockClosed]) :=
  C4_absent_ip_probes (some 80) "tcp" 2 (wAllOK 0) rfl rfl

/-- C5, counterexample: an inventory whose host record lacks a `services`
mapping makes the run raise an uncaught `AttributeError` instead of
completing, so the run does not always complete. -/
theorem C5_counterexample :
    main ⟨2⟩ hostsE dnsFail wAllOK = .error attrErrMsg :=
  rfl

/-- C5 (amended): for every inventory in which each host record has a
`services` mapping and socket creation never fails, the run completes —
for every DNS oracle, so a resolution failure (or missing identity) for one
host aborts neither the other hosts nor that host's own services, which are
probed with the absent IP — and it produces exactly one row per
valid-protocol (host, service) pair. -/
theorem C5_run_completes (cfg : Config) (hosts : List HostData)
    (dns : String → Except String String) (w : Nat → SockOracle)
    (hsvc : ∀ hd ∈ hosts, (hd.services).isSome = true)
    (hw : ∀ k st, (w k).create st = .ok ()) :
    ∃ rows evs, main cfg hosts dns w = .ok (rows, evs) ∧
      rows.length = validServiceCount hosts := by
  obtain ⟨rows, evs, k2, hrh⟩ := rh_total cfg.timeout dns w hw hosts hsvc 0
  have hm : main cfg hosts dns w = .ok (rows, evs) := by
    unfold main
    simp only [hrh]
  have hp := rh_pairs cfg.timeout dns w hosts 0 rows evs k2 hrh
  have h1 : (rows.map (fun r => (r.name, r.service))).length =
      rows.length := by simp
  refine ⟨rows, evs, hm, ?_⟩
  rw [← h1, hp.1, expectedPairs_length]

/-- C5 witness: the run over `hostsD` (a host that cannot resolve at all)
still completes with one row per valid service. -/
theorem C5_run_completes_witness :
    ∃ rows evs, main ⟨2⟩ hostsD dnsFail wAllOK = .ok (rows, evs) ∧
      rows.length = validServiceCount hostsD :=
  C5_run_completes ⟨2⟩ hostsD dnsFail wAllOK (by decide) (fun _ _ => rfl)

/-- C6: a host record carrying a literal IP resolves to exactly that IP,
whatever its FQDN field holds and whatever DNS would answer, with no
observable event — no DNS query and no printed error. -/
theorem C6_literal_ip (hd : HostData) (dns : String → Except String String)
    (i : String) (h : hd.ip = some i) :
    resolveIP hd dns = (some i, []) :=
  resolveIP_literal hd dns i h

/-- C6 witness: literal IP with an FQDN also present and a DNS oracle that
would fail every lookup. -/
theorem C6_literal_ip_witness :
    resolveIP ⟨some "zeta", some "10.9.9.9", some "zeta.example", some []⟩
      dnsFail = (some "10.9.9.9", []) :=
  C6_literal_ip ⟨some "zeta", some "10.9.9.9", some "zeta.example", some []⟩
    dnsFail "10.9.9.9" rfl

/-- C7: the output of a completed run lists exactly the valid-protocol
(host name, service name) pairs in input iteration order — hosts in declared
order and, within each host, services in declared order. -/
theorem C7_output_order (cfg : Config) (hosts : List HostData)
    (dns : String → Except String String) (w : Nat → SockOracle)
    (out : List Row × List Event) (h : main cfg hosts dns w = .ok out) :
    out.1.map (fun r => (r.name, r.service)) = expectedPairs hosts := by
  obtain ⟨k2, hrh⟩ := main_ok_inv cfg hosts dns w out h
  exact (rh_pairs cfg.timeout dns w hosts 0 out.1 out.2 k2 hrh).1

/-- C7 witness: the run over `hostsB` produces its expected pair list. -/
theorem C7_output_order_witness :
    outB.1.map (fun r => (r.name, r.service)) = expectedPairs hostsB :=
  C7_output_order ⟨2⟩ hostsB dnsFail wAllOK outB rfl

/-- C8: the socket type is chosen by protocol (`tcp` → stream, `udp` →
datagram), the timeout is applied before the connect attempt, success is
reported exactly when `connect_ex` returns 0, and a raising connect yields
non-success with the error printed. -/
theorem C8_protocol_semantics (host : String) (port : Option Int)
    (proto : String) (timeout : Int) (w : SockOracle)
    (hc : w.create (sockTypeFor proto) = .ok ())
    (hs : w.settimeoutRes = .ok ()) :
    sockTypeFor "tcp" = SockType.stream ∧
    sockTypeFor "udp" = SockType.dgram ∧
    test_connection (some host) port proto timeout w =
      (match w.connect host port with
       | .ok code =>
         (.ok (code == 0),
          [.sockCreated (sockTypeFor proto), .timeoutSet timeout,
           .connectAttempt (some host) port, .sockClosed])
       | .error e =>
         (.ok false,
          [.sockCreated (sockTypeFor proto), .timeoutSet timeout,
           .connectAttempt (some host) port, .printedError ("Error: " ++ e),
           .sockClosed])) := by
  refine ⟨rfl, rfl, ?_⟩
  cases hx : w.connect host port with
  | error e => exact tc_conn_raise (some host) port proto timeout w e hc hs hx
  | ok code => exact tc_conn_code (some host) port proto timeout w code hc hs hx

/-- C8 witness: a UDP probe whose `connect_ex` returns errno 111. -/
theorem C8_protocol_semantics_witness :
    sockTypeFor "tcp" = SockType.stream ∧
    sockTypeFor "udp" = SockType.dgram ∧
    test_connection (some "10.1.1.1") (some 53) "udp" 3 (wRefused 0) =
      (match (wRefused 0).connect "10.1.1.1" (some 53) with
       | .ok code =>
         (.ok (code == 0),
          [.sockCreated (sockTypeFor "udp"), .timeoutSet 3,
           .connectAttempt (some "10.1.1.1") (some 53), .sockClosed])
       | .error e =>
         (.ok false,
          [.sockCreated (sockTypeFor "udp"), .timeoutSet 3,
           .connectAttempt (some "10.1.1.1") (some 53),
           .printedError ("Error: " ++ e), .sockClosed])) :=
  C8_protocol_semantics "10.1.1.1" (some 53) "udp" 3 (wRefused 0)
    rfl rfl

/-- C9: in a completed run, every timeout ever applied to a socket is the
single configured `config.timeout`. -/
theorem C9_uniform_timeout (cfg : Config) (hosts : List HostData)
    (dns : String → Except String String) (w : Nat → SockOracle)
    (out : List Row × List Event) (h : main cfg hosts dns w = .ok out) :
    ∀ v, Event.timeoutSet v ∈ out.2 → v = cfg.timeout := by
  obtain ⟨k2, hrh⟩ := main_ok_inv cfg hosts dns w out h
  exact (rh_pairs cfg.timeout dns w hosts 0 out.1 out.2 k2 hrh).2

/-- C9 witness: the timeout applied by the probe of `hostsB` is the
configured one. -/
theorem C9_uniform_timeout_witness : (2 : Int) = Config.timeout ⟨2⟩ :=
  C9_uniform_timeout ⟨2⟩ hostsB dnsFail wAllOK outB rfl 2 (by decide)

/-- C10: a host record without a `services` mapping, reached after
well-formed hosts, makes the run raise an uncaught `AttributeError` from
`services.items()` and abort without producing the result table, unlike the
other per-host error conditions, which are printed and skipped over. -/
theorem C10_missing_services (cfg : Config) (pre post : List HostData)
    (hd : HostData) (dns : String → Except String String)
    (w : Nat → SockOracle)
    (hpre : ∀ h ∈ pre, (h.services).isSome = true)
    (hw : ∀ k st, (w k).create st = .ok ())
    (hnone : hd.services = none) :
    main cfg (pre ++ hd :: post) dns w = .error attrErrMsg := by
  unfold main
  rw [rh_abort cfg.timeout dns w hw hd hnone post pre hpre 0]

/-- C10 witness: a well-formed host followed by a services-less one aborts
the run with the `AttributeError`. -/
theorem C10_missing_services_witness :
    main ⟨2⟩ ([hostPre] ++ hostNoSvc :: []) dnsFail wAllOK =
      .error attrErrMsg :=
  C10_missing_services ⟨2⟩ [hostPre] [] hostNoSvc dnsFail wAllOK
    (by decide) (fun _ _ => rfl) rfl

end SimPySerMon
